import Mathlib

/-!
Shallow embedding of the Autofiller Community Edition TypeScript SDK client
(src/sdks/typescript/src/client.ts and src/sdks/typescript/src/errors.ts).

JavaScript exceptions are modelled as Except values; the Error classes of
errors.ts are flattened to a record of their observable fields, with class
identity captured by the name tag each constructor writes into Error.name.
JS numbers that the client merely copies are modelled as Int; Date values
are modelled as an optional epoch-millisecond value, none standing for the
JS Invalid Date.  String-to-date parsing and filesystem path resolution are
environment facts, so they enter the model as explicit function parameters.
-/

namespace Autofiller

/-- An SDK error value as observed by a caller: the Error.name tag set by the
class constructor, the human message, and the machine-readable code. -/
structure SdkError where
  name : String
  message : String
  code : String
deriving DecidableEq, Repr

/-- errors.ts: new AutofillerError(message, code) — the base class; name tag
AutofillerError, code taken from the constructor argument. -/
def mkAutofillerError (message code : String) : SdkError :=
  { name := "AutofillerError", message := message, code := code }

/-- errors.ts: new ValidationError(message) — fixed code validation_error. -/
def mkValidationError (message : String) : SdkError :=
  { name := "ValidationError", message := message, code := "validation_error" }

/-- errors.ts: new AuthenticationError(message) — fixed code
authentication_error. -/
def mkAuthenticationError (message : String) : SdkError :=
  { name := "AuthenticationError", message := message, code := "authentication_error" }

/-- errors.ts: new RateLimitError(message) — fixed code rate_limit_exceeded. -/
def mkRateLimitError (message : String) : SdkError :=
  { name := "RateLimitError", message := message, code := "rate_limit_exceeded" }

/-- errors.ts: new ExtractionError(message, code) — name tag ExtractionError
(default code extraction_failed at the TS level; never raised by client.ts). -/
def mkExtractionError (message code : String) : SdkError :=
  { name := "ExtractionError", message := message, code := code }

/-- Best-effort parse of an HTTP error body projected to the fields
handleErrorResponse reads: code and message, each possibly absent. -/
structure ErrorBody where
  code : Option String
  message : Option String
deriving DecidableEq, Repr

/-- client.ts AutofillerClient.handleErrorResponse: maps a non-2xx response
(status, reason phrase, best-effort parsed body: none when the body was not
valid JSON) to the error thrown.  Per-call context does not enter. -/
def handleErrorResponse (status : Nat) (statusText : String)
    (parsed : Option ErrorBody) : SdkError :=
  let errorData := parsed.getD { code := none, message := none }
  let message := errorData.message.getD statusText
  let code := errorData.code.getD ("http_" ++ toString status)
  if status = 401 then mkAuthenticationError message
  else if status = 429 then mkRateLimitError message
  else if status = 400 ∨ status = 422 then mkValidationError message
  else mkAutofillerError message code

/-- Outcome of JSON.parse on a response body: either the payload decoded at
the caller's expected type together with its projection to the error-body
fields (both views of the same JSON text), or a parse failure carrying the
JS SyntaxError message. -/
inductive BodyParse (α : Type) where
  | ok (value : α) (errBody : ErrorBody)
  | malformed (parseErrorMessage : String)
deriving DecidableEq, Repr

/-- An HTTP response as fetch resolves it: status, reason phrase, body. -/
structure HttpResponse (α : Type) where
  status : Nat
  statusText : String
  body : BodyParse α
deriving DecidableEq, Repr

/-- How the awaited fetch call ends: a response, an abort fired by the
timeout timer (AbortError), or another network-level failure. -/
inductive FetchResult (α : Type) where
  | response (r : HttpResponse α)
  | aborted
  | netError (message : String)
deriving DecidableEq, Repr

/-- Response.ok of the fetch API: status in the 2xx range. -/
def responseIsOk (status : Nat) : Bool :=
  200 ≤ status && status ≤ 299

/-- The error-body view of a parsed body; none when parsing failed
(handleErrorResponse then falls back to an empty object). -/
def errBodyOf {α : Type} : BodyParse α → Option ErrorBody
  | .ok _ eb => some eb
  | .malformed _ => none

/-- client.ts AutofillerClient.request, given how the fetch settled:
on a 2xx response the parsed JSON body is returned, a malformed body on 2xx
surfaces through the catch block as the generic AutofillerError with code
request_failed; on non-2xx the thrown handleErrorResponse error is rethrown
unchanged by the instanceof AutofillerError branch; an AbortError becomes
the generic AutofillerError with code timeout; any other failure becomes the
generic AutofillerError with code request_failed. -/
def request {α : Type} (fetched : FetchResult α) : Except SdkError α :=
  match fetched with
  | .aborted => .error (mkAutofillerError "Request timed out" "timeout")
  | .netError m => .error (mkAutofillerError ("Request failed: " ++ m) "request_failed")
  | .response r =>
    if responseIsOk r.status then
      match r.body with
      | .ok v _ => .ok v
      | .malformed m =>
          .error (mkAutofillerError ("Request failed: " ++ m) "request_failed")
    else
      .error (handleErrorResponse r.status r.statusText (errBodyOf r.body))

/-- A JS Date: epoch milliseconds, or none for the Invalid Date produced by
new Date(unparsable string). -/
structure JSDate where
  time : Option Int
deriving DecidableEq, Repr

/-- new Date(s) for a string s, with the engine's parser passed explicitly:
parsing never throws, an unparsable string yields the Invalid Date. -/
def newDateOfString (parse : String → Option Int) (s : String) : JSDate :=
  ⟨parse s⟩

/-- new Date(t) for an epoch-millisecond number t (e.g. Date.now()). -/
def newDateOfMillis (t : Int) : JSDate :=
  ⟨some t⟩

/-- Wire bounding box record (numbers copied opaquely). -/
structure BoundingBox where
  page : Int
  x : Int
  y : Int
  width : Int
  height : Int
deriving DecidableEq, Repr

/-- A JSON object used as a string-keyed record, copied opaquely. -/
abbrev RecordMap (α : Type) := List (String × α)

/-- Wire metadata object of ApiExtractionResult; every field optional. -/
structure ApiMetadata where
  pages : Option Int
  processing_time_ms : Option Int
  model_version : Option String
  created_at : Option String
deriving DecidableEq, Repr

/-- Wire ApiExtractionResult (snake_case) as declared in client.ts. -/
structure ApiExtractionResult (α : Type) where
  id : String
  status : String
  domain_pack : String
  data : α
  confidence : Option (RecordMap Int)
  bounding_boxes : Option (RecordMap BoundingBox)
  metadata : Option ApiMetadata
  warnings : Option (List String)
deriving DecidableEq, Repr

/-- Client-model extraction metadata (types.ts ExtractionMetadata). -/
structure ExtractionMetadata where
  pages : Int
  processingTimeMs : Int
  modelVersion : String
  createdAt : JSDate
deriving DecidableEq, Repr

/-- Client-model extraction result (types.ts ExtractResult); the status
string is cast, not validated, so it stays a String here. -/
structure ExtractResult (α : Type) where
  id : String
  status : String
  domainPack : String
  data : α
  confidence : Option (RecordMap Int)
  boundingBoxes : Option (RecordMap BoundingBox)
  metadata : ExtractionMetadata
  warnings : Option (List String)
deriving DecidableEq, Repr

/-- client.ts AutofillerClient.transformExtractionResult: snake_case to the
client model, with defaults 0 / 0 / unknown for absent metadata numbers and
model version, and created_at parsed by new Date (falling back to Date.now()
when absent, passed here as now). -/
def transformExtractionResult {α : Type} (parse : String → Option Int) (now : Int)
    (response : ApiExtractionResult α) : ExtractResult α :=
  { id := response.id
    status := response.status
    domainPack := response.domain_pack
    data := response.data
    confidence := response.confidence
    boundingBoxes := response.bounding_boxes
    metadata :=
      { pages := (response.metadata.bind (fun m => m.pages)).getD 0
        processingTimeMs := (response.metadata.bind (fun m => m.processing_time_ms)).getD 0
        modelVersion := (response.metadata.bind (fun m => m.model_version)).getD "unknown"
        createdAt :=
          match response.metadata.bind (fun m => m.created_at) with
          | some s => newDateOfString parse s
          | none => newDateOfMillis now }
    warnings := response.warnings }

/-- Wire job error object; at runtime either field may be absent, which the
job-failure path of waitForJob tolerates with its null-coalescing defaults. -/
structure ApiJobError where
  code : Option String
  message : Option String
deriving DecidableEq, Repr

/-- Wire ApiJobStatus (snake_case) as declared in client.ts. -/
structure ApiJobStatus (α : Type) where
  job_id : String
  status : String
  progress : Option Int
  result : Option (ApiExtractionResult α)
  error : Option ApiJobError
  created_at : String
  completed_at : Option String
deriving DecidableEq, Repr

/-- Client-model job status (types.ts JobStatus); status kept as String
because the source merely casts it. -/
structure JobStatus (α : Type) where
  jobId : String
  status : String
  progress : Option Int
  result : Option (ExtractResult α)
  error : Option ApiJobError
  createdAt : JSDate
  completedAt : Option JSDate
deriving DecidableEq, Repr

/-- client.ts AutofillerClient.transformJobStatus: snake_case to the client
model; created_at goes through new Date(string) unconditionally, while
completed_at is guarded by a JS truthiness test — an absent or empty string
yields undefined, only a non-empty string reaches new Date. -/
def transformJobStatus {α : Type} (parse : String → Option Int) (now : Int)
    (response : ApiJobStatus α) : JobStatus α :=
  { jobId := response.job_id
    status := response.status
    progress := response.progress
    result := response.result.map (transformExtractionResult parse now)
    error := response.error
    createdAt := newDateOfString parse response.created_at
    completedAt :=
      match response.completed_at with
      | some s => if s = "" then none else some (newDateOfString parse s)
      | none => none }

/-- Outcome of a waitForJob call, paired below with the number of status
requests issued: success with the embedded result, a thrown error, or the
model artifact of the supplied response trace running out. -/
inductive WaitOutcome (α : Type) where
  | ok (result : ExtractResult α)
  | err (e : SdkError)
  | serverSilent
deriving DecidableEq, Repr

/-- The loop body of client.ts AutofillerClient.waitForJob.  The k-th getJob
response (already normalized) is the k-th list element; elapsed k is the
value of Date.now() minus startTime at the k-th evaluation of the while
condition, so it absorbs network latency and the sleep(pollInterval) between
iterations.  Returns the outcome together with how many status requests were
issued.  The loop checks the deadline before each poll; a poll whose status
is completed with a result present returns that result; a failed status
throws with the null-coalesced error code and message; any other snapshot
leads to a sleep and another iteration. -/
def waitForJobGo {α : Type} (maxWait : Nat) (elapsed : Nat → Nat) :
    Nat → List (JobStatus α) → WaitOutcome α × Nat
  | k, [] =>
    if elapsed k < maxWait then
      (.serverSilent, k)
    else
      (.err (mkAutofillerError "Job timed out waiting for completion" "job_timeout"), k)
  | k, job :: rest =>
    if elapsed k < maxWait then
      if h : job.status = "completed" ∧ job.result.isSome then
        (.ok (job.result.get h.2), k + 1)
      else if job.status = "failed" then
        (.err (mkAutofillerError
            ((job.error.bind (fun e => e.message)).getD "Job failed")
            ((job.error.bind (fun e => e.code)).getD "job_failed")), k + 1)
      else
        waitForJobGo maxWait elapsed (k + 1) rest
    else
      (.err (mkAutofillerError "Job timed out waiting for completion" "job_timeout"), k)

/-- client.ts AutofillerClient.waitForJob over a trace of normalized getJob
responses: the while loop starts with zero requests issued and the deadline
clock at elapsed 0. -/
def waitForJob {α : Type} (maxWait : Nat) (elapsed : Nat → Nat)
    (polls : List (JobStatus α)) : WaitOutcome α × Nat :=
  waitForJobGo maxWait elapsed 0 polls

/-- The file input union of ExtractOptions: a path string, a Buffer of
bytes, or a Blob. -/
inductive FileInput where
  | path (p : String)
  | buffer (bytes : List Nat)
  | blob (bytes : List Nat)
deriving DecidableEq, Repr

/-- types.ts ExtractOptions: the caller-supplied options object. -/
structure ExtractOptions where
  file : FileInput
  filename : Option String
  domainPack : Option String
  includeConfidence : Option Bool
  includeBoundingBoxes : Option Bool
  language : Option String
deriving DecidableEq, Repr

/-- The scalar-options record assembled by buildFormData before it is
JSON-stringified into the single options form field; a none field is a key
that was never set on the object. -/
structure WireOptions where
  include_confidence : Option Bool
  include_bounding_boxes : Option Bool
  language : Option String
deriving DecidableEq, Repr

/-- Object.keys(extractOptions).length on the scalar-options record. -/
def WireOptions.keyCount (w : WireOptions) : Nat :=
  (if w.include_confidence.isSome then 1 else 0) +
    (if w.include_bounding_boxes.isSome then 1 else 0) +
    (if w.language.isSome then 1 else 0)

/-- A value appended to the multipart form: a read stream opened on a
resolved path, the bytes of a Buffer, the bytes of a Blob, a plain text
field, or the JSON-stringified scalar-options record (kept structurally). -/
inductive FormValue where
  | stream (resolvedPath : String)
  | bytes (b : List Nat)
  | blobVal (b : List Nat)
  | text (s : String)
  | optionsJson (w : WireOptions)
deriving DecidableEq, Repr

/-- One formData.append call: field name, value, and the filename argument
when one was passed. -/
structure FormEntry where
  field : String
  value : FormValue
  filename : Option String
deriving DecidableEq, Repr

/-- path.basename: the last segment of a path. -/
def pathBasename (p : String) : String :=
  ((p.splitOn "/").reverse).headD p

/-- client.ts AutofillerClient.buildFormData, with path.resolve passed in as
the environment's path-resolution function.  Returns the built form (or the
thrown error) together with the caller's options object as it stands after
the call, every source statement having been translated; the source only
ever reads from options.  Truthiness tests of the source are modelled
exactly: the Buffer branch rejects an absent or empty filename, while the
domain-pack and language appends skip absent or empty strings and the two
boolean flags are tested against undefined only. -/
def buildFormData (resolve : String → String) (options : ExtractOptions) :
    Except SdkError (List FormEntry) × ExtractOptions :=
  let fileEntry : Except SdkError FormEntry :=
    match options.file with
    | .path p =>
      let filePath := resolve p
      let filename := options.filename.getD (pathBasename filePath)
      .ok { field := "file", value := .stream filePath, filename := some filename }
    | .buffer b =>
      if options.filename = none ∨ options.filename = some "" then
        .error (mkValidationError "filename is required when file is a Buffer")
      else
        .ok { field := "file", value := .bytes b, filename := options.filename }
    | .blob b =>
      .ok { field := "file", value := .blobVal b,
            filename := some (options.filename.getD "document") }
  match fileEntry with
  | .error e => (.error e, options)
  | .ok fe =>
    let domainEntries : List FormEntry :=
      match options.domainPack with
      | some s =>
        if s = "" then [] else [{ field := "domain_pack", value := .text s, filename := none }]
      | none => []
    let extractOptions : WireOptions :=
      { include_confidence := options.includeConfidence
        include_bounding_boxes := options.includeBoundingBoxes
        language :=
          match options.language with
          | some s => if s = "" then none else some s
          | none => none }
    let optionEntries : List FormEntry :=
      if 0 < extractOptions.keyCount then
        [{ field := "options", value := .optionsJson extractOptions, filename := none }]
      else []
    (.ok (fe :: (domainEntries ++ optionEntries)), options)

/-- types.ts AutofillerConfig; apiKey is modelled as possibly absent because
the constructor guards against a missing key at runtime. -/
structure AutofillerConfig where
  apiKey : Option String
  baseUrl : Option String
  timeout : Option Nat
  maxRetries : Option Nat
deriving DecidableEq, Repr

/-- The Required AutofillerConfig the constructor stores. -/
structure ResolvedConfig where
  apiKey : String
  baseUrl : String
  timeout : Nat
  maxRetries : Nat
deriving DecidableEq, Repr

/-- client.ts DEFAULT_BASE_URL. -/
def DEFAULT_BASE_URL : String := "https://api.autofiller.dev/v1"

/-- client.ts DEFAULT_TIMEOUT (ms). -/
def DEFAULT_TIMEOUT : Nat := 30000

/-- client.ts DEFAULT_MAX_RETRIES. -/
def DEFAULT_MAX_RETRIES : Nat := 3

/-- client.ts AutofillerClient constructor: a falsy apiKey (absent or the
empty string) throws ValidationError; otherwise the config is stored with
the documented defaults filled in.  Pure: no request is represented. -/
def AutofillerClient.construct (config : AutofillerConfig) :
    Except SdkError ResolvedConfig :=
  if config.apiKey = none ∨ config.apiKey = some "" then
    .error (mkValidationError "API key is required")
  else
    .ok { apiKey := config.apiKey.getD ""
          baseUrl := config.baseUrl.getD DEFAULT_BASE_URL
          timeout := config.timeout.getD DEFAULT_TIMEOUT
          maxRetries := config.maxRetries.getD DEFAULT_MAX_RETRIES }

section PollerLemmas

variable {α : Type}

/-- One non-terminal poll inside the deadline advances the loop: the request
counter goes up by one and the rest of the trace is consumed from there. -/
theorem waitForJobGo_skip (maxWait : Nat) (elapsed : Nat → Nat) (k : Nat)
    (job : JobStatus α) (rest : List (JobStatus α))
    (ht : elapsed k < maxWait)
    (hc : job.status ≠ "completed") (hf : job.status ≠ "failed") :
    waitForJobGo maxWait elapsed k (job :: rest) =
      waitForJobGo maxWait elapsed (k + 1) rest := by
  rw [waitForJobGo]
  rw [if_pos ht, dif_neg (fun hco => hc hco.1), if_neg hf]

/-- A whole prefix of non-terminal polls, each inside the deadline, is
consumed one request per element. -/
theorem waitForJobGo_drop (maxWait : Nat) (elapsed : Nat → Nat)
    (pre : List (JobStatus α)) :
    ∀ (k : Nat) (tail : List (JobStatus α)),
      (∀ j ∈ pre, j.status ≠ "completed" ∧ j.status ≠ "failed") →
      (∀ i, i < pre.length → elapsed (k + i) < maxWait) →
      waitForJobGo maxWait elapsed k (pre ++ tail) =
        waitForJobGo maxWait elapsed (k + pre.length) tail := by
  induction pre with
  | nil => intro k tail _ _; simp
  | cons job pre ih =>
    intro k tail hpre htime
    have hj := hpre job (List.mem_cons_self job pre)
    have h0 : elapsed k < maxWait := by
      have := htime 0 (by simp)
      simpa using this
    rw [List.cons_append, waitForJobGo_skip maxWait elapsed k job (pre ++ tail) h0 hj.1 hj.2]
    rw [ih (k + 1) tail (fun j hjm => hpre j (List.mem_cons_of_mem _ hjm))
      (fun i hi => by
        have := htime (i + 1) (by simpa using Nat.succ_lt_succ hi)
        simpa [Nat.add_assoc, Nat.add_comm 1 i] using this)]
    simp only [List.length_cons]
    have heq : k + 1 + pre.length = k + (pre.length + 1) := by omega
    rw [heq]

end PollerLemmas

/-- C2: when the Nth poll (the trace being the non-terminal prefix pre of
length N − 1 followed by the terminal snapshot job) is the first terminal
one and the deadline is not hit through the Nth check, waitForJob issues
exactly N status requests: on completed it returns the result embedded in
that snapshot, on failed it throws an AutofillerError with the job error's
code and message, null-coalesced to job_failed and "Job failed". -/
theorem C2_poll_stops_at_first_terminal {α : Type} (maxWait : Nat)
    (elapsed : Nat → Nat) (pre rest : List (JobStatus α)) (job : JobStatus α)
    (N : Nat) (hN : N = pre.length + 1)
    (hpre : ∀ j ∈ pre, j.status ≠ "completed" ∧ j.status ≠ "failed")
    (htime : ∀ k, k < N → elapsed k < maxWait) :
    (∀ r, job.status = "completed" → job.result = some r →
        waitForJob maxWait elapsed (pre ++ job :: rest) = (.ok r, N)) ∧
    (job.status = "failed" →
        waitForJob maxWait elapsed (pre ++ job :: rest) =
          (.err (mkAutofillerError
              ((job.error.bind (fun e => e.message)).getD "Job failed")
              ((job.error.bind (fun e => e.code)).getD "job_failed")), N)) := by
  have hdrop :
      waitForJob maxWait elapsed (pre ++ job :: rest) =
        waitForJobGo maxWait elapsed pre.length (job :: rest) := by
    unfold waitForJob
    have := waitForJobGo_drop maxWait elapsed pre 0 (job :: rest) hpre
      (fun i hi => by simpa using htime i (by omega))
    simpa using this
  have hlast : elapsed pre.length < maxWait := htime pre.length (by omega)
  constructor
  · intro r hcomp hres
    rw [hdrop, waitForJobGo, if_pos hlast,
      dif_pos ⟨hcomp, by simp [hres]⟩]
    simp [hres, hN]
  · intro hfail
    have hnc : ¬(job.status = "completed" ∧ job.result.isSome) := by
      intro hco
      rw [hfail] at hco
      exact absurd hco.1 (by decide)
    rw [hdrop, waitForJobGo, if_pos hlast, dif_neg hnc, if_pos hfail]
    simp [hN]

/-- C2 witness: a processing snapshot followed by a completed one with an
embedded result makes waitForJob return that result after exactly two
status requests. -/
theorem C2_witness :
    ((2 : Nat) = ([(⟨"j1", "processing", some 40, none, none, ⟨some 0⟩, none⟩ : JobStatus Unit)]).length + 1) ∧
    (∀ j ∈ [(⟨"j1", "processing", some 40, none, none, ⟨some 0⟩, none⟩ : JobStatus Unit)],
        j.status ≠ "completed" ∧ j.status ≠ "failed") ∧
    (∀ k, k < 2 → 2000 * k < 300000) ∧
    waitForJob 300000 (fun k => 2000 * k)
        ([(⟨"j1", "processing", some 40, none, none, ⟨some 0⟩, none⟩ : JobStatus Unit)] ++
          (⟨"j1", "completed", some 100,
              some ⟨"e1", "completed", "invoice-standard", (), none, none,
                ⟨1, 5, "m1", ⟨some 0⟩⟩, none⟩,
              none, ⟨some 0⟩, some ⟨some 4000⟩⟩ : JobStatus Unit) :: []) =
      (.ok ⟨"e1", "completed", "invoice-standard", (), none, none,
          ⟨1, 5, "m1", ⟨some 0⟩⟩, none⟩, 2) := by
  refine ⟨by decide, by decide, by decide, ?_⟩
  exact (C2_poll_stops_at_first_terminal 300000 (fun k => 2000 * k) _ []
      ⟨"j1", "completed", some 100,
        some ⟨"e1", "completed", "invoice-standard", (), none, none,
          ⟨1, 5, "m1", ⟨some 0⟩⟩, none⟩,
        none, ⟨some 0⟩, some ⟨some 4000⟩⟩ 2 (by decide) (by decide)
      (by decide)).1 _ rfl rfl

/-- C3: when every poll before the deadline is non-terminal (the trace being
the non-terminal prefix pre, consumed while elapsed < maxWait, with the
deadline hit at the check after the pre.length-th request), waitForJob
throws an AutofillerError with code job_timeout and issues exactly
pre.length status requests — none after the deadline is exceeded. -/
theorem C3_poll_deadline {α : Type} (maxWait : Nat) (elapsed : Nat → Nat)
    (pre rest : List (JobStatus α)) (m : Nat) (hm : m = pre.length)
    (hpre : ∀ j ∈ pre, j.status ≠ "completed" ∧ j.status ≠ "failed")
    (htime : ∀ k, k < m → elapsed k < maxWait)
    (hstop : maxWait ≤ elapsed m) :
    waitForJob maxWait elapsed (pre ++ rest) =
      (.err (mkAutofillerError "Job timed out waiting for completion" "job_timeout"), m) := by
  subst hm
  have hdrop :
      waitForJob maxWait elapsed (pre ++ rest) =
        waitForJobGo maxWait elapsed pre.length rest := by
    unfold waitForJob
    have := waitForJobGo_drop maxWait elapsed pre 0 rest hpre
      (fun i hi => by simpa using htime i hi)
    simpa using this
  have hnlt : ¬ elapsed pre.length < maxWait := by omega
  rw [hdrop]
  cases rest with
  | nil => rw [waitForJobGo, if_neg hnlt]
  | cons job rest => rw [waitForJobGo, if_neg hnlt]

/-- C3 witness: one in-deadline processing poll, then the deadline is
exceeded: waitForJob times out with code job_timeout after exactly one
status request, leaving the remaining trace unpolled. -/
theorem C3_witness :
    ((1 : Nat) = ([(⟨"j1", "processing", none, none, none, ⟨some 0⟩, none⟩ : JobStatus Unit)]).length) ∧
    (∀ j ∈ [(⟨"j1", "processing", none, none, none, ⟨some 0⟩, none⟩ : JobStatus Unit)],
        j.status ≠ "completed" ∧ j.status ≠ "failed") ∧
    (∀ k, k < 1 → 200 * k < 100) ∧ (100 ≤ 200 * 1) ∧
    waitForJob 100 (fun k => 200 * k)
        ([(⟨"j1", "processing", none, none, none, ⟨some 0⟩, none⟩ : JobStatus Unit)] ++
          [(⟨"j1", "processing", none, none, none, ⟨some 0⟩, none⟩ : JobStatus Unit)]) =
      (.err (mkAutofillerError "Job timed out waiting for completion" "job_timeout"), 1) := by
  refine ⟨by decide, by decide, by decide, by decide, ?_⟩
  exact C3_poll_deadline 100 (fun k => 200 * k) _ _ 1 (by decide) (by decide)
    (by decide) (by decide)

/-- C1: on any non-2xx response the thrown error is determined purely by the
status code and the best-effort parsed error body — the transport delegates
to handleErrorResponse for every call site alike — and the classification
is: 401 AuthenticationError, 429 RateLimitError, 400 and 422
ValidationError, any other non-2xx the generic AutofillerError whose
message is the body message (falling back to the reason phrase) and whose
code is the body code (falling back to http_ followed by the status). -/
theorem C1_error_classification (status : Nat) (statusText : String)
    (parsed : Option ErrorBody) (h2xx : ¬(200 ≤ status ∧ status ≤ 299)) :
    (∀ {α : Type} (body : BodyParse α),
        request (.response ⟨status, statusText, body⟩) =
          .error (handleErrorResponse status statusText (errBodyOf body))) ∧
    (status = 401 → handleErrorResponse status statusText parsed =
        mkAuthenticationError ((parsed.getD ⟨none, none⟩).message.getD statusText)) ∧
    (status = 429 → handleErrorResponse status statusText parsed =
        mkRateLimitError ((parsed.getD ⟨none, none⟩).message.getD statusText)) ∧
    ((status = 400 ∨ status = 422) → handleErrorResponse status statusText parsed =
        mkValidationError ((parsed.getD ⟨none, none⟩).message.getD statusText)) ∧
    (status ≠ 401 → status ≠ 429 → status ≠ 400 → status ≠ 422 →
        handleErrorResponse status statusText parsed =
          mkAutofillerError ((parsed.getD ⟨none, none⟩).message.getD statusText)
            ((parsed.getD ⟨none, none⟩).code.getD ("http_" ++ toString status))) := by
  refine ⟨?_, ?_, ?_, ?_, ?_⟩
  · intro α body
    have hok : responseIsOk status = false := by
      simp only [responseIsOk, Bool.and_eq_false_iff, decide_eq_false_iff_not]
      omega
    simp [request, hok]
  · intro h; subst h; rfl
  · intro h; subst h; rfl
  · rintro (h | h) <;> (subst h; rfl)
  · intro h1 h2 h3 h4
    rw [handleErrorResponse]
    rw [if_neg h1, if_neg h2, if_neg (by tauto)]

/-- C1 witness: a 404 whose body is not valid JSON yields the generic
AutofillerError with the reason phrase as message and the status-derived
code http_404, through the transport itself. -/
theorem C1_witness :
    (¬((200 : Nat) ≤ 404 ∧ (404 : Nat) ≤ 299)) ∧
    request (α := Unit) (.response ⟨404, "Not Found", .malformed "bad json"⟩) =
      .error (mkAutofillerError "Not Found" "http_404") := by
  refine ⟨by omega, ?_⟩
  have h := C1_error_classification 404 "Not Found"
    (errBodyOf (BodyParse.malformed (α := Unit) "bad json")) (by omega)
  rw [h.1 (BodyParse.malformed "bad json")]
  rw [h.2.2.2.2 (by decide) (by decide) (by decide) (by decide)]
  rfl

/-- C10: for 401, 429, 400 and 422 the thrown error's code is the fixed code
of its class — authentication_error, rate_limit_exceeded, validation_error —
no matter what code the server's body carries; only the message comes from
the body for these kinds, and the body's code reaches the thrown error only
in the generic catch-all branch. -/
theorem C10_fixed_codes (status : Nat) (statusText : String)
    (parsed : Option ErrorBody) :
    (status = 401 →
        (handleErrorResponse status statusText parsed).code = "authentication_error") ∧
    (status = 429 →
        (handleErrorResponse status statusText parsed).code = "rate_limit_exceeded") ∧
    ((status = 400 ∨ status = 422) →
        (handleErrorResponse status statusText parsed).code = "validation_error") ∧
    ((status = 401 ∨ status = 429 ∨ status = 400 ∨ status = 422) →
        (handleErrorResponse status statusText parsed).message =
          (parsed.getD ⟨none, none⟩).message.getD statusText) ∧
    (status ≠ 401 → status ≠ 429 → status ≠ 400 → status ≠ 422 →
        (handleErrorResponse status statusText parsed).code =
          (parsed.getD ⟨none, none⟩).code.getD ("http_" ++ toString status)) := by
  refine ⟨?_, ?_, ?_, ?_, ?_⟩
  · intro h; subst h; rfl
  · intro h; subst h; rfl
  · rintro (h | h) <;> (subst h; rfl)
  · rintro (h | h | h | h) <;> (subst h; rfl)
  · intro h1 h2 h3 h4
    rw [handleErrorResponse]
    rw [if_neg h1, if_neg h2, if_neg (by tauto)]
    rfl

/-- C10 witness: a 429 whose body supplies its own code still throws with
the class-fixed code rate_limit_exceeded, while the body's message is kept. -/
theorem C10_witness :
    (handleErrorResponse 429 "Too Many Requests"
        (some ⟨some "server_chosen_code", some "slow down"⟩)).code =
      "rate_limit_exceeded" ∧
    (handleErrorResponse 429 "Too Many Requests"
        (some ⟨some "server_chosen_code", some "slow down"⟩)).message = "slow down" := by
  have h := C10_fixed_codes 429 "Too Many Requests"
    (some ⟨some "server_chosen_code", some "slow down"⟩)
  exact ⟨h.2.1 rfl, h.2.2.2.1 (Or.inr (Or.inl rfl))⟩

/-- C4 counterexample: a 200 response whose body is not valid JSON makes the
call fail with an error whose name tag is AutofillerError — the very tag of
the generic catch-all class, with code request_failed — so the thrown kind
is not a ProtocolError distinguishable by type or tag; no such class exists
in errors.ts. -/
theorem C4_counterexample :
    request (α := Unit) (.response ⟨200, "OK", .malformed "Unexpected token"⟩) =
      .error { name := "AutofillerError", message := "Request failed: Unexpected token",
               code := "request_failed" } := by
  rfl

/-- C4 amended: a 2xx response with a malformed JSON body fails with the
generic AutofillerError class (name tag AutofillerError, the same tag as the
catch-all kind) carrying code request_failed and the parse failure message
prefixed by Request failed. -/
theorem C4_amended_protocol {α : Type} (status : Nat) (statusText msg : String)
    (h : 200 ≤ status ∧ status ≤ 299) :
    request (α := α) (.response ⟨status, statusText, .malformed msg⟩) =
      .error (mkAutofillerError ("Request failed: " ++ msg) "request_failed") ∧
    (mkAutofillerError ("Request failed: " ++ msg) "request_failed").name =
      "AutofillerError" := by
  have hok : responseIsOk status = true := by
    simp only [responseIsOk, Bool.and_eq_true, decide_eq_true_eq]
    omega
  refine ⟨?_, rfl⟩
  simp [request, hok]

/-- C4 amended witness: the 200 instance. -/
theorem C4_witness :
    ((200 : Nat) ≤ 200 ∧ (200 : Nat) ≤ 299) ∧
    request (α := Unit) (.response ⟨200, "OK", .malformed "oops"⟩) =
      .error (mkAutofillerError ("Request failed: " ++ "oops") "request_failed") := by
  refine ⟨by omega, ?_⟩
  exact (C4_amended_protocol 200 "OK" "oops" (by omega)).1

/-- C5 counterexample: an aborted (timed-out) request fails with an error
whose name tag is AutofillerError — the tag of the generic kind (code
timeout aside, no type or tag distinguishes it): errors.ts defines no
Timeout class. -/
theorem C5_counterexample :
    request (α := Unit) .aborted =
      .error { name := "AutofillerError", message := "Request timed out",
               code := "timeout" } := by
  rfl

/-- C5 amended: exceeding the configured timeout (the fetch aborts) fails
with the generic AutofillerError class, name tag AutofillerError, carrying
code timeout and message Request timed out; the timeout case is
distinguishable from other generic errors only by that code string. -/
theorem C5_amended_timeout {α : Type} :
    request (α := α) .aborted =
      .error (mkAutofillerError "Request timed out" "timeout") ∧
    (mkAutofillerError "Request timed out" "timeout").name = "AutofillerError" :=
  ⟨rfl, rfl⟩

/-- C6 counterexample: a wire job status whose creation and completion
timestamp strings parse as no instant is normalized without any failure:
transformJobStatus returns a plain JobStatus whose dates are the JS Invalid
Date value, silently. -/
theorem C6_counterexample :
    transformJobStatus (α := Unit) (fun _ => none) 0
        ⟨"j1", "processing", none, none, none, "not-a-timestamp", some "garbage"⟩ =
      ⟨"j1", "processing", none, none, none, ⟨none⟩, some ⟨none⟩⟩ := by
  rfl

/-- C6 amended: normalization never fails on a bad timestamp — there is no
ProtocolError in the SDK.  An unparsable created_at string on a job status,
a truthy (non-empty) unparsable completed_at string, and an unparsable
created_at on an extraction result's metadata, each become the JS Invalid
Date in the client model; an empty completed_at string is silently dropped
to undefined by the truthiness guard, and an absent extraction-result
created_at is silently defaulted to the current time. -/
theorem C6_amended_invalid_date {α : Type} (parse : String → Option Int)
    (now : Int) (r : ApiJobStatus α) (h1 : parse r.created_at = none) :
    (transformJobStatus parse now r).createdAt = ⟨none⟩ ∧
    (∀ s, r.completed_at = some s → s ≠ "" → parse s = none →
        (transformJobStatus parse now r).completedAt = some ⟨none⟩) ∧
    (r.completed_at = some "" →
        (transformJobStatus parse now r).completedAt = none) ∧
    (∀ (er : ApiExtractionResult α) (s : String),
        er.metadata.bind (fun m => m.created_at) = some s → parse s = none →
        (transformExtractionResult parse now er).metadata.createdAt = ⟨none⟩) ∧
    (∀ (er : ApiExtractionResult α),
        er.metadata.bind (fun m => m.created_at) = none →
        (transformExtractionResult parse now er).metadata.createdAt = ⟨some now⟩) := by
  refine ⟨?_, ?_, ?_, ?_, ?_⟩
  · simp [transformJobStatus, newDateOfString, h1]
  · intro s hs hne hp
    simp [transformJobStatus, newDateOfString, hs, hne, hp]
  · intro hs
    simp [transformJobStatus, hs]
  · intro er s hs hp
    simp [transformExtractionResult, newDateOfString, hs, hp]
  · intro er hs
    simp [transformExtractionResult, newDateOfMillis, hs]

/-- C6 amended witness: the concrete unparsable trace. -/
theorem C6_witness :
    ((fun _ => (none : Option Int)) "not-a-timestamp" = none) ∧
    (transformJobStatus (α := Unit) (fun _ => none) 0
        ⟨"j1", "processing", none, none, none, "not-a-timestamp", some "garbage"⟩).createdAt =
      ⟨none⟩ := by
  refine ⟨rfl, ?_⟩
  exact (C6_amended_invalid_date (α := Unit) (fun _ => none) 0
    ⟨"j1", "processing", none, none, none, "not-a-timestamp", some "garbage"⟩ rfl).1

/-- C7: construction-time validation is synchronous and network-free in the
model (both functions are pure and mention no transport): a missing or empty
API key makes the constructor throw ValidationError, and a Buffer file input
with no filename makes buildFormData throw ValidationError. -/
theorem C7_construction_validation (config : AutofillerConfig)
    (resolve : String → String) (options : ExtractOptions) (b : List Nat)
    (hkey : config.apiKey = none ∨ config.apiKey = some "")
    (hfile : options.file = .buffer b) (hname : options.filename = none) :
    AutofillerClient.construct config =
      .error (mkValidationError "API key is required") ∧
    (buildFormData resolve options).1 =
      .error (mkValidationError "filename is required when file is a Buffer") ∧
    (mkValidationError "API key is required").name = "ValidationError" := by
  refine ⟨?_, ?_, rfl⟩
  · rw [AutofillerClient.construct, if_pos hkey]
  · simp [buildFormData, hfile, hname]

/-- C7 witness: an empty API key and a filename-less Buffer. -/
theorem C7_witness :
    ((⟨some "", none, none, none⟩ : AutofillerConfig).apiKey = none ∨
      (⟨some "", none, none, none⟩ : AutofillerConfig).apiKey = some "") ∧
    ((⟨.buffer [1, 2], none, none, none, none, none⟩ : ExtractOptions).file =
      .buffer [1, 2]) ∧
    ((⟨.buffer [1, 2], none, none, none, none, none⟩ : ExtractOptions).filename = none) ∧
    AutofillerClient.construct ⟨some "", none, none, none⟩ =
      .error (mkValidationError "API key is required") ∧
    (buildFormData id ⟨.buffer [1, 2], none, none, none, none, none⟩).1 =
      .error (mkValidationError "filename is required when file is a Buffer") := by
  refine ⟨by decide, by decide, by decide, ?_, ?_⟩
  · exact (C7_construction_validation ⟨some "", none, none, none⟩ id
      ⟨.buffer [1, 2], none, none, none, none, none⟩ [1, 2]
      (Or.inr rfl) rfl rfl).1
  · exact (C7_construction_validation ⟨some "", none, none, none⟩ id
      ⟨.buffer [1, 2], none, none, none, none, none⟩ [1, 2]
      (Or.inr rfl) rfl rfl).2.1

/-- C8: normalizing a wire extraction result with every optional field
present reproduces every field in the client model — id, status, domain
pack, data, confidence, bounding boxes, the metadata numbers, model version
and parsed creation date, and warnings — and normalizing one with every
optional field absent succeeds (the normalizer is total) with the
documented defaults pages 0 and modelVersion unknown. -/
theorem C8_normalizer_round_trip {α : Type} (parse : String → Option Int)
    (now : Int) (r : ApiExtractionResult α) (pages ptime : Int)
    (mv ca : String) (conf : RecordMap Int) (bb : RecordMap BoundingBox)
    (w : List String)
    (hm : r.metadata = some ⟨some pages, some ptime, some mv, some ca⟩)
    (hconf : r.confidence = some conf) (hbb : r.bounding_boxes = some bb)
    (hw : r.warnings = some w) :
    transformExtractionResult parse now r =
      { id := r.id, status := r.status, domainPack := r.domain_pack,
        data := r.data, confidence := some conf, boundingBoxes := some bb,
        metadata := { pages := pages, processingTimeMs := ptime,
                      modelVersion := mv,
                      createdAt := newDateOfString parse ca },
        warnings := some w } ∧
    (∀ (r0 : ApiExtractionResult α), r0.metadata = none →
        (transformExtractionResult parse now r0).metadata.pages = 0 ∧
        (transformExtractionResult parse now r0).metadata.modelVersion = "unknown") := by
  constructor
  · simp [transformExtractionResult, hm, hconf, hbb, hw]
  · intro r0 hm0
    constructor <;> simp [transformExtractionResult, hm0]

/-- C8 witness: a fully-populated wire payload and a fully-absent one. -/
theorem C8_witness :
    ((⟨"e1", "completed", "invoice-standard", (), some [("total", 9)],
        some [("total", ⟨1, 2, 3, 4, 5⟩)],
        some ⟨some 3, some 120, some "v2", some "2024-01-15T00:00:00Z"⟩,
        some ["w1"]⟩ : ApiExtractionResult Unit).metadata =
      some ⟨some 3, some 120, some "v2", some "2024-01-15T00:00:00Z"⟩) ∧
    transformExtractionResult (fun _ => some 1705276800000) 0
        (⟨"e1", "completed", "invoice-standard", (), some [("total", 9)],
          some [("total", ⟨1, 2, 3, 4, 5⟩)],
          some ⟨some 3, some 120, some "v2", some "2024-01-15T00:00:00Z"⟩,
          some ["w1"]⟩ : ApiExtractionResult Unit) =
      { id := "e1", status := "completed", domainPack := "invoice-standard",
        data := (), confidence := some [("total", 9)],
        boundingBoxes := some [("total", ⟨1, 2, 3, 4, 5⟩)],
        metadata := { pages := 3, processingTimeMs := 120, modelVersion := "v2",
                      createdAt := newDateOfString (fun _ => some 1705276800000)
                        "2024-01-15T00:00:00Z" },
        warnings := some ["w1"] } ∧
    (transformExtractionResult (α := Unit) (fun _ => some 1705276800000) 0
        ⟨"e0", "completed", "p", (), none, none, none, none⟩).metadata.pages = 0 ∧
    (transformExtractionResult (α := Unit) (fun _ => some 1705276800000) 0
        ⟨"e0", "completed", "p", (), none, none, none, none⟩).metadata.modelVersion =
      "unknown" := by
  have h := C8_normalizer_round_trip (α := Unit) (fun _ => some 1705276800000) 0
    ⟨"e1", "completed", "invoice-standard", (), some [("total", 9)],
      some [("total", ⟨1, 2, 3, 4, 5⟩)],
      some ⟨some 3, some 120, some "v2", some "2024-01-15T00:00:00Z"⟩,
      some ["w1"]⟩ 3 120 "v2" "2024-01-15T00:00:00Z" [("total", 9)]
    [("total", ⟨1, 2, 3, 4, 5⟩)] ["w1"] rfl rfl rfl rfl
  exact ⟨rfl, h.1, (h.2 ⟨"e0", "completed", "p", (), none, none, none, none⟩ rfl).1,
    (h.2 ⟨"e0", "completed", "p", (), none, none, none, none⟩ rfl).2⟩

/-- C9: buildFormData leaves the caller-supplied options object exactly as
it was, for every file-input variant and option combination: the post-call
options object the pair carries equals the argument. -/
theorem C9_no_mutation (resolve : String → String) (options : ExtractOptions) :
    (buildFormData resolve options).2 = options := by
  rw [buildFormData]
  rcases options with ⟨file, filename, dp, ic, ib, lang⟩
  cases file <;> simp
  split <;> rfl

end Autofiller
